import Mathlib

/-!
Shallow embedding of `src/main/main.c` (weatherDisplay): the Wi-Fi
connection lifecycle manager (`wifiEventHandler`, `ipEventHandler`,
`connectWIFI`) and the single-shot HTTP request client (`sendHTTPReq`),
together with theorems settling the specification claims about them.
-/

namespace WeatherDisplay

/-- The event bases dispatched by the default event loop.  `WIFI_EVENT` and
`IP_EVENT` are the two bases the handlers care about; `otherBase` stands for
any other registered base. -/
inductive EvBase
  | wifiBase
  | ipBase
  | otherBase
deriving DecidableEq, Repr

/-- ESP-IDF enum value of `WIFI_EVENT_STA_START` (an opaque tag; only its
distinctness from the other ids matters). -/
def WIFI_EVENT_STA_START : Int := 2

/-- ESP-IDF enum value of `WIFI_EVENT_STA_DISCONNECTED`. -/
def WIFI_EVENT_STA_DISCONNECTED : Int := 5

/-- ESP-IDF enum value of `IP_EVENT_STA_GOT_IP`. -/
def IP_EVENT_STA_GOT_IP : Int := 0

/-- The observable state shared between the event handlers and the blocking
caller of `connectWIFI`: the retry counter `connRetries` (main.c line 24) and
the two latch bits `WIFI_CONN_SUCC` / `WIFI_CONN_FAIL` of `wifiEventGroup`
(lines 20-22). -/
structure ConnState where
  connRetries : Nat
  succBit : Bool
  failBit : Bool
deriving DecidableEq, Repr

/-- State at the start of a `connectWIFI` cycle: `connRetries = 0` and the
event group freshly created with both bits clear. -/
def initConnState : ConnState := ⟨0, false, false⟩

/-- `wifiEventHandler` (main.c lines 37-62).  Returns early unless the base is
`WIFI_EVENT`.  On `STA_START` it calls `esp_wifi_connect()` (an external
driver call that does not touch the modelled state).  On `STA_DISCONNECTED`
it retries while `connRetries < WIFI_RETRY`, otherwise sets the failure bit. -/
def wifiEventHandler (WIFI_RETRY : Nat) (s : ConnState) (event_base : EvBase)
    (event_id : Int) : ConnState :=
  if event_base ≠ EvBase.wifiBase then s
  else if event_id = WIFI_EVENT_STA_START then s
  else if event_id = WIFI_EVENT_STA_DISCONNECTED then
    if s.connRetries < WIFI_RETRY then { s with connRetries := s.connRetries + 1 }
    else { s with failBit := true }
  else s

/-- `ipEventHandler` (main.c lines 64-83).  Returns early unless the base is
`IP_EVENT`; on `IP_EVENT_STA_GOT_IP` it resets `connRetries` to 0 and sets the
success bit. -/
def ipEventHandler (s : ConnState) (event_base : EvBase) (event_id : Int) : ConnState :=
  if event_base ≠ EvBase.ipBase then s
  else if event_id = IP_EVENT_STA_GOT_IP then { s with connRetries := 0, succBit := true }
  else s

/-- An asynchronous event delivered by the default event loop: a base and a
32-bit id. -/
structure Ev where
  base : EvBase
  id : Int
deriving DecidableEq, Repr

/-- A station-disconnected event. -/
def discEvent : Ev := ⟨EvBase.wifiBase, WIFI_EVENT_STA_DISCONNECTED⟩

/-- An address-acquired event. -/
def gotIpEvent : Ev := ⟨EvBase.ipBase, IP_EVENT_STA_GOT_IP⟩

/-- Delivery of one event: `wifiEventHandler` is registered for
`WIFI_EVENT/ANY_ID` and `ipEventHandler` for `IP_EVENT/IP_EVENT_STA_GOT_IP`
(main.c lines 105-112); since each handler self-guards on its base, delivering
the event to both in sequence is the dispatch of the event loop. -/
def step (WIFI_RETRY : Nat) (s : ConnState) (e : Ev) : ConnState :=
  ipEventHandler (wifiEventHandler WIFI_RETRY s e.base e.id) e.base e.id

/-- Deliver a whole sequence of events. -/
def runEvents (WIFI_RETRY : Nat) (s : ConnState) (es : List Ev) : ConnState :=
  es.foldl (step WIFI_RETRY) s

/-- Outcome of a `connectWIFI` cycle as observed at lines 134-140: the success
bit is tested first, then the failure bit. -/
inductive Outcome
  | Joined
  | Failed
deriving DecidableEq, Repr

/-- Whether `xEventGroupWaitBits(wifiEventGroup, WIFI_CONN_SUCC | WIFI_CONN_FAIL, ...)`
(line 130) is released in state `s`. -/
def signalSet (s : ConnState) : Bool := s.succBit || s.failBit

/-- The branch taken at lines 134-140 once some bit is set: `WIFI_CONN_SUCC`
is checked before `WIFI_CONN_FAIL`. -/
def outcomeOf (s : ConnState) : Outcome :=
  if s.succBit then Outcome.Joined else Outcome.Failed

/-- The blocking wait of `connectWIFI`: deliver events one at a time; the wait
resolves at the first state in which a latch bit is set, yielding the outcome
and the state at that moment; if no event ever sets a bit the caller stays
blocked (`none`). -/
def resolveTrace (WIFI_RETRY : Nat) (s : ConnState) : List Ev → Option (Outcome × ConnState)
  | [] => none
  | e :: rest =>
    let s' := step WIFI_RETRY s e
    if signalSet s' then some (outcomeOf s', s') else resolveTrace WIFI_RETRY s' rest

/-- `connectWIFI` for a given retry bound and event trace, starting from the
initial per-cycle state. -/
def connectResult (WIFI_RETRY : Nat) (es : List Ev) : Option (Outcome × ConnState) :=
  resolveTrace WIFI_RETRY initConnState es

/-- Delivering a disconnect while strictly below the bound just increments the
counter and resolves nothing; hence a block of such disconnects shifts the
start state of the remaining trace. -/
theorem resolveTrace_disc_prefix (WIFI_RETRY : Nat) :
    ∀ (n r : Nat), r + n ≤ WIFI_RETRY → ∀ (l : List Ev),
      resolveTrace WIFI_RETRY ⟨r, false, false⟩ (List.replicate n discEvent ++ l) =
        resolveTrace WIFI_RETRY ⟨r + n, false, false⟩ l := by
  intro n
  induction n with
  | zero => intro r _ l; simp
  | succ n ih =>
    intro r h l
    have hr : r < WIFI_RETRY := by omega
    have hstep : step WIFI_RETRY ⟨r, false, false⟩ discEvent =
        ⟨r + 1, false, false⟩ := by
      simp [step, wifiEventHandler, ipEventHandler, discEvent,
        WIFI_EVENT_STA_START, WIFI_EVENT_STA_DISCONNECTED, hr]
    rw [List.replicate_succ]
    simp only [List.cons_append, resolveTrace, hstep, signalSet]
    have := ih (r + 1) (by omega) l
    simpa [Nat.add_comm, Nat.add_assoc, Nat.add_left_comm] using this

/-- Delivering a disconnect while the counter already equals the bound sets
the failure bit and resolves the wait with outcome `Failed`. -/
theorem resolveTrace_disc_exhausted (WIFI_RETRY : Nat) (l : List Ev) :
    resolveTrace WIFI_RETRY ⟨WIFI_RETRY, false, false⟩ (discEvent :: l) =
      some (Outcome.Failed, ⟨WIFI_RETRY, false, true⟩) := by
  have hstep : step WIFI_RETRY ⟨WIFI_RETRY, false, false⟩ discEvent =
      ⟨WIFI_RETRY, false, true⟩ := by
    simp [step, wifiEventHandler, ipEventHandler, discEvent,
      WIFI_EVENT_STA_START, WIFI_EVENT_STA_DISCONNECTED]
  simp [resolveTrace, hstep, signalSet, outcomeOf]

/-- C1, as the code has it: after `WIFI_RETRY + 1` consecutive disconnects the
failure bit is set with `connRetries = WIFI_RETRY`, while after only
`WIFI_RETRY` disconnects no bit is set and the caller is still blocked. -/
theorem connect_fails_after_retry_plus_one (WIFI_RETRY : Nat) :
    connectResult WIFI_RETRY (List.replicate (WIFI_RETRY + 1) discEvent) =
        some (Outcome.Failed, ⟨WIFI_RETRY, false, true⟩) ∧
      connectResult WIFI_RETRY (List.replicate WIFI_RETRY discEvent) = none := by
  constructor
  · rw [connectResult, List.replicate_succ']
    have h := resolveTrace_disc_prefix WIFI_RETRY WIFI_RETRY 0 (by omega) [discEvent]
    simp only [Nat.zero_add] at h
    rw [initConnState, h]
    exact resolveTrace_disc_exhausted WIFI_RETRY []
  · rw [connectResult]
    have h := resolveTrace_disc_prefix WIFI_RETRY WIFI_RETRY 0 (by omega) []
    simp only [Nat.zero_add, List.append_nil] at h
    rw [initConnState, h]
    rfl

/-- C1 counterexample: with `WIFI_RETRY = 3`, delivering exactly 3 disconnects
does not resolve `connectWIFI` at all — the failure bit is still clear (the
counter has reached 3, but `WIFI_CONN_FAIL` is only set on the 4th
disconnect). -/
theorem connect_three_disconnects_not_failed :
    connectResult 3 (List.replicate 3 discEvent) = none ∧
      (runEvents 3 initConnState (List.replicate 3 discEvent)).failBit = false ∧
      (runEvents 3 initConnState (List.replicate 3 discEvent)).connRetries = 3 := by
  refine ⟨?_, by decide, by decide⟩
  decide

/-- C2: if an address-acquired event arrives after `k < WIFI_RETRY`
disconnects, the wait resolves with outcome `Joined` and the counter is reset
to 0 (with the success bit set and the failure bit clear). -/
theorem connect_joins_after_got_ip (WIFI_RETRY k : Nat) (hM : 1 ≤ WIFI_RETRY)
    (hk : k < WIFI_RETRY) :
    connectResult WIFI_RETRY (List.replicate k discEvent ++ [gotIpEvent]) =
      some (Outcome.Joined, ⟨0, true, false⟩) := by
  rw [connectResult, initConnState,
    resolveTrace_disc_prefix WIFI_RETRY k 0 (by omega) [gotIpEvent]]
  have hstep : step WIFI_RETRY ⟨k, false, false⟩ gotIpEvent =
      ⟨0, true, false⟩ := by
    simp [step, wifiEventHandler, ipEventHandler, gotIpEvent, IP_EVENT_STA_GOT_IP]
  simp [resolveTrace, hstep, signalSet, outcomeOf]

/-- Witness for C2 at `WIFI_RETRY = 3`, one disconnect then address-acquired. -/
theorem connect_joins_after_got_ip_witness :
    connectResult 3 (List.replicate 1 discEvent ++ [gotIpEvent]) =
      some (Outcome.Joined, ⟨0, true, false⟩) :=
  connect_joins_after_got_ip 3 1 (by decide) (by decide)

/-- One delivered event keeps the retry counter at or below the bound. -/
theorem step_connRetries_le (WIFI_RETRY : Nat) (s : ConnState) (e : Ev)
    (h : s.connRetries ≤ WIFI_RETRY) :
    (step WIFI_RETRY s e).connRetries ≤ WIFI_RETRY := by
  unfold step ipEventHandler wifiEventHandler
  split_ifs <;> simp_all <;> omega

/-- C3: over every event trace, `connRetries` never exceeds `WIFI_RETRY` —
the counter is only incremented while strictly below the bound. -/
theorem connRetries_never_exceeds_bound (WIFI_RETRY : Nat) (es : List Ev) :
    (runEvents WIFI_RETRY initConnState es).connRetries ≤ WIFI_RETRY := by
  have general : ∀ (l : List Ev) (s : ConnState), s.connRetries ≤ WIFI_RETRY →
      (runEvents WIFI_RETRY s l).connRetries ≤ WIFI_RETRY := by
    intro l
    induction l with
    | nil => intro s h; exact h
    | cons e rest ih =>
      intro s h
      exact ih (step WIFI_RETRY s e) (step_connRetries_le WIFI_RETRY s e h)
  exact general es initConnState (by simp [initConnState])

/-- Once the wait has resolved, the resolved outcome and state are fixed:
appending further events to the trace cannot change them. -/
theorem resolveTrace_stable (WIFI_RETRY : Nat) :
    ∀ (t : List Ev) (s : ConnState) (u : List Ev) (r : Outcome × ConnState),
      resolveTrace WIFI_RETRY s t = some r →
        resolveTrace WIFI_RETRY s (t ++ u) = some r := by
  intro t
  induction t with
  | nil => intro s u r hr; simp [resolveTrace] at hr
  | cons e rest ih =>
    intro s u r hr
    rw [List.cons_append]
    rw [resolveTrace] at hr ⊢
    by_cases hsig : signalSet (step WIFI_RETRY s e) = true
    · simpa [hsig] using hr
    · simp only [hsig, Bool.false_eq_true, if_false] at hr ⊢
      exact ih (step WIFI_RETRY s e) u r hr

/-- C4 counterexample: with `WIFI_RETRY = 0`, an address-acquired event
resolves the cycle with `Joined` (success bit set, failure bit clear), yet a
later qualifying disconnect-exhaustion event is not a no-op on the observable
state — it sets the failure bit as well. -/
theorem second_qualifying_event_not_noop :
    connectResult 0 [gotIpEvent] = some (Outcome.Joined, ⟨0, true, false⟩) ∧
      step 0 ⟨0, true, false⟩ discEvent = ⟨0, true, true⟩ ∧
      (⟨0, true, true⟩ : ConnState) ≠ ⟨0, true, false⟩ := by
  refine ⟨by decide, by decide, by decide⟩

/-- C4 amended: the outcome `connectWIFI` returns is captured when the
blocking wait resolves, so any events delivered afterwards — including a
second qualifying event — leave the already-returned outcome unchanged. -/
theorem connect_outcome_stable (WIFI_RETRY : Nat) (t u : List Ev)
    (r : Outcome × ConnState) (h : connectResult WIFI_RETRY t = some r) :
    connectResult WIFI_RETRY (t ++ u) = some r :=
  resolveTrace_stable WIFI_RETRY t initConnState u r h

/-- Witness for the amended C4: a cycle resolved by an address-acquired event
returns `Joined` even when a disconnect-exhaustion event follows. -/
theorem connect_outcome_stable_witness :
    connectResult 0 ([gotIpEvent] ++ [discEvent]) =
      some (Outcome.Joined, ⟨0, true, false⟩) :=
  connect_outcome_stable 0 [gotIpEvent] [discEvent] _ (by decide)

/-! ## RequestClient: `sendHTTPReq` (main.c lines 143-220) -/

/-- The fixed HTTP request (main.c lines 26-35): the adjacent C string
literals concatenated, with `WEATHER_API_URL = "httpbin.org"`. -/
def REQUEST : String :=
  "GET / HTTP/1.0\r\nHost: httpbin.org:80\r\nUser-Agent: esp-idf/1.0 esp32\r\n\r\n"

/-- Result of one `read(s, recv_buf, sizeof(recv_buf) - 1)` call: `bytes data`
is a return value `r = data.length ≥ 0` with `data` the bytes placed in the
buffer; `err` is a negative return (error or receive timeout). -/
inductive ReadResult
  | bytes (data : List Char)
  | err
deriving DecidableEq, Repr

/-- The response do-while loop (main.c lines 209-215): each read's bytes are
echoed with `putchar`; the loop continues exactly while the read return is
positive, so a zero-length or negative read ends the stream. -/
def readLoop : List ReadResult → List Char
  | [] => []
  | ReadResult.err :: _ => []
  | ReadResult.bytes bs :: rest => if bs.isEmpty then [] else bs ++ readLoop rest

/-- Results of the network-stack calls `sendHTTPReq` makes, in program order:
the return value of `getaddrinfo`, whether its `res` out-parameter is NULL,
the fd returned by `socket`, the returns of `connect`, of the single `write`
of the full request, of `setsockopt(SO_RCVTIMEO)`, and the successive `read`
results. -/
structure NetEnv where
  getaddrinfoRet : Int
  resNull : Bool
  socketFd : Int
  connectRet : Int
  writeRet : Int
  setsockoptRet : Int
  reads : List ReadResult
deriving Repr

/-- Which exit path of `sendHTTPReq` was taken; `done` is the normal path
that falls out of the read loop. -/
inductive FetchResult
  | dnsError
  | socketError
  | connectError
  | sendError
  | timeoutCfgError
  | done
deriving DecidableEq, Repr

/-- Observable effects of one `sendHTTPReq` call: the exit path, the bytes
echoed to stdout, whether a socket fd was successfully allocated, whether
`close` was called on it, whether `freeaddrinfo` was called, and the sizes
passed to `write`. -/
structure FetchOut where
  result : FetchResult
  output : List Char
  sockOpened : Bool
  sockClosed : Bool
  addrinfoFreed : Bool
  writeCalls : List Nat
deriving DecidableEq, Repr

/-- `sendHTTPReq` (main.c lines 143-220) over the syscall results `env`.
Mirrors the guard chain of the source: DNS failure (`err != 0 || res == NULL`,
line 157), socket allocation failure (`s < 0`, line 168), connect failure
(`!= 0`, line 176), write failure (`< 0`, line 188), setsockopt failure
(`< 0`, line 200), then the read loop; every path after a successful
`socket()` ends in `close(s)`. -/
def sendHTTPReq (env : NetEnv) : FetchOut :=
  if env.getaddrinfoRet ≠ 0 ∨ env.resNull then
    ⟨FetchResult.dnsError, [], false, false, false, []⟩
  else if env.socketFd < 0 then
    ⟨FetchResult.socketError, [], false, false, true, []⟩
  else if env.connectRet ≠ 0 then
    ⟨FetchResult.connectError, [], true, true, true, []⟩
  else if env.writeRet < 0 then
    ⟨FetchResult.sendError, [], true, true, true, [REQUEST.length]⟩
  else if env.setsockoptRet < 0 then
    ⟨FetchResult.timeoutCfgError, [], true, true, true, [REQUEST.length]⟩
  else
    ⟨FetchResult.done, readLoop env.reads, true, true, true, [REQUEST.length]⟩

/-- C5: on every exit path of `sendHTTPReq`, if a socket was allocated during
the call then it is closed before the call returns. -/
theorem socket_always_released (env : NetEnv)
    (h : (sendHTTPReq env).sockOpened = true) :
    (sendHTTPReq env).sockClosed = true := by
  unfold sendHTTPReq at h ⊢
  split_ifs at h ⊢ <;> simp_all

/-- Witness for C5: a fully successful fetch both opens and closes its
socket. -/
theorem socket_always_released_witness :
    (sendHTTPReq ⟨0, false, 4, 0, 71, 0, [ReadResult.bytes []]⟩).sockOpened = true ∧
      (sendHTTPReq ⟨0, false, 4, 0, 71, 0, [ReadResult.bytes []]⟩).sockClosed = true :=
  ⟨by decide, socket_always_released ⟨0, false, 4, 0, 71, 0, [ReadResult.bytes []]⟩ (by decide)⟩

/-- C6 counterexample: the source only tests `write(...) < 0` (line 188), so a
short write — here 10 of the 71 request bytes — passes the guard: the fetch
proceeds to the read loop and is not reported as a send error. -/
theorem short_write_not_fatal :
    (0 : Int) ≤ 10 ∧ (10 : Int) < (REQUEST.length : Int) ∧
      (sendHTTPReq ⟨0, false, 4, 0, 10, 0, [ReadResult.bytes []]⟩).result =
        FetchResult.done ∧
      (sendHTTPReq ⟨0, false, 4, 0, 10, 0, [ReadResult.bytes []]⟩).result ≠
        FetchResult.sendError := by
  refine ⟨by decide, by decide, by decide, by decide⟩

/-- C6 amended: the request is written in a single `write` call of the full
request length with no retry, and a failed write (negative return) is fatal
to the fetch — the socket is released, a send error is reported, and nothing
is read; a short write with a non-negative return is not detected. -/
theorem write_failure_fatal (env : NetEnv)
    (hdns : env.getaddrinfoRet = 0) (hres : env.resNull = false)
    (hsock : 0 ≤ env.socketFd) (hconn : env.connectRet = 0) :
    (sendHTTPReq env).writeCalls = [REQUEST.length] ∧
      (env.writeRet < 0 →
        (sendHTTPReq env).result = FetchResult.sendError ∧
          (sendHTTPReq env).sockClosed = true ∧
          (sendHTTPReq env).output = []) := by
  unfold sendHTTPReq
  split_ifs <;> simp_all <;> omega

/-- Witness for the amended C6: a write returning -1 yields a send error with
the socket closed and no output, and the single write call carried the full
request. -/
theorem write_failure_fatal_witness :
    (sendHTTPReq ⟨0, false, 4, 0, -1, 0, []⟩).writeCalls = [REQUEST.length] ∧
      ((-1 : Int) < 0 →
        (sendHTTPReq ⟨0, false, 4, 0, -1, 0, []⟩).result = FetchResult.sendError ∧
          (sendHTTPReq ⟨0, false, 4, 0, -1, 0, []⟩).sockClosed = true ∧
          (sendHTTPReq ⟨0, false, 4, 0, -1, 0, []⟩).output = []) :=
  write_failure_fatal ⟨0, false, 4, 0, -1, 0, []⟩ (by decide) (by decide)
    (by decide) (by decide)

/-- C7: the echoed byte sequence equals the bytes delivered by the peer —
each non-empty read contributes its bytes as the next chunk, a zero-length or
error read ends the stream, a run of non-empty chunks followed by peer close
is echoed in full, and the concrete HTTP response scenario produces exactly
the peer's bytes. -/
theorem response_stream_echoed :
    (∀ (bs : List Char) (rest : List ReadResult), bs ≠ [] →
        readLoop (ReadResult.bytes bs :: rest) = bs ++ readLoop rest) ∧
      (∀ (rest : List ReadResult), readLoop (ReadResult.bytes [] :: rest) = []) ∧
      (∀ (rest : List ReadResult), readLoop (ReadResult.err :: rest) = []) ∧
      (∀ (chunks : List (List Char)), (∀ c ∈ chunks, c ≠ []) →
        readLoop (chunks.map ReadResult.bytes ++ [ReadResult.bytes []]) = chunks.flatten) ∧
      sendHTTPReq ⟨0, false, 4, 0, 71, 0,
          [ReadResult.bytes ("HTTP/1.0 200 OK\r\n\r\nhi".data), ReadResult.bytes []]⟩ =
        ⟨FetchResult.done, "HTTP/1.0 200 OK\r\n\r\nhi".data, true, true, true,
          [REQUEST.length]⟩ := by
  refine ⟨?_, ?_, ?_, ?_, by decide⟩
  · intro bs rest h
    cases bs with
    | nil => exact absurd rfl h
    | cons c cs => simp [readLoop]
  · intro rest; simp [readLoop]
  · intro rest; simp [readLoop]
  · intro chunks
    induction chunks with
    | nil => intro _; simp [readLoop]
    | cons c cs ih =>
      intro h
      have hc : c ≠ [] := h c (by simp)
      cases c with
      | nil => exact absurd rfl hc
      | cons x xs =>
        have ih2 := ih (fun d hd => h d (by simp [hd]))
        simp [readLoop, ih2]

/-- Witness for C7: a single non-empty read contributes its bytes as the next
chunk of the stream. -/
theorem response_stream_echoed_witness :
    readLoop (ReadResult.bytes "hi".data :: []) = "hi".data ++ readLoop [] :=
  response_stream_echoed.1 "hi".data [] (by decide)

/-- C8: when the peer accepts and closes without sending anything (first read
returns 0), the fetch ends normally (`done`, not an error) with an empty
output and the socket released. -/
theorem empty_response_normal :
    sendHTTPReq ⟨0, false, 4, 0, 71, 0, [ReadResult.bytes []]⟩ =
      ⟨FetchResult.done, [], true, true, true, [REQUEST.length]⟩ := by
  decide

/-- C9: if `getaddrinfo` fails (non-zero return or NULL result), the fetch
returns immediately with a DNS error: no socket is ever allocated (so none is
closed), nothing is written and nothing is echoed. -/
theorem dns_failure_no_socket (env : NetEnv)
    (h : env.getaddrinfoRet ≠ 0 ∨ env.resNull = true) :
    sendHTTPReq env = ⟨FetchResult.dnsError, [], false, false, false, []⟩ := by
  unfold sendHTTPReq
  have hc : env.getaddrinfoRet ≠ 0 ∨ env.resNull := by simpa using h
  rw [if_pos hc]

/-- Witness for C9: a `getaddrinfo` failure with return code 202. -/
theorem dns_failure_no_socket_witness :
    sendHTTPReq ⟨202, false, 9, 0, 71, 0, []⟩ =
      ⟨FetchResult.dnsError, [], false, false, false, []⟩ :=
  dns_failure_no_socket ⟨202, false, 9, 0, 71, 0, []⟩ (Or.inl (by decide))

/-- C10: events that do not concern the connection manager leave its state
unchanged — a base other than `WIFI_EVENT` is ignored by `wifiEventHandler`,
a base other than `IP_EVENT` is ignored by `ipEventHandler`, a Wi-Fi event
other than station-start/station-disconnected is a no-op, an IP event other
than got-ip is a no-op, and an event of any other base is a no-op. -/
theorem unrelated_events_frame (WIFI_RETRY : Nat) (s : ConnState) (b : EvBase) (i : Int) :
    (b ≠ EvBase.wifiBase → wifiEventHandler WIFI_RETRY s b i = s) ∧
      (b ≠ EvBase.ipBase → ipEventHandler s b i = s) ∧
      (b = EvBase.wifiBase → i ≠ WIFI_EVENT_STA_START →
        i ≠ WIFI_EVENT_STA_DISCONNECTED → step WIFI_RETRY s ⟨b, i⟩ = s) ∧
      (b = EvBase.ipBase → i ≠ IP_EVENT_STA_GOT_IP → step WIFI_RETRY s ⟨b, i⟩ = s) ∧
      (b = EvBase.otherBase → step WIFI_RETRY s ⟨b, i⟩ = s) := by
  refine ⟨fun h => by simp [wifiEventHandler, h],
    fun h => by simp [ipEventHandler, h],
    fun hb h1 h2 => by subst hb; simp [step, wifiEventHandler, ipEventHandler, h1, h2],
    fun hb h1 => by subst hb; simp [step, wifiEventHandler, ipEventHandler, h1],
    fun hb => by subst hb; simp [step, wifiEventHandler, ipEventHandler]⟩

/-- Witness for C10: an event with an unrelated base (id 7) changes nothing. -/
theorem unrelated_events_frame_witness :
    step 3 initConnState ⟨EvBase.otherBase, 7⟩ = initConnState :=
  (unrelated_events_frame 3 initConnState EvBase.otherBase 7).2.2.2.2 rfl

end WeatherDisplay
